import Mathlib

/-!
Verification development for the pioj server (src/server.py): the
ticket-detail cache, window projector, issue normalizer helpers and
field resolver.  Python dicts with a fixed key set are embedded as Lean
structures; attributes that the code accesses defensively (hasattr /
dict.get) are embedded as Option fields; ISO-8601 timestamps are
embedded as the integer instant (seconds) they denote, so that datetime
comparison and subtraction become integer comparison and subtraction;
JSON numbers are embedded as Int (Python int) and Rat (Python float,
whose values in this domain are exact decimals).  I/O outcomes (file
load, file save, the single upstream fetch a call can make) are passed
as explicit parameters, and each function returns its observable
effects (fetch count, list of mappings handed to save_cache).
-/

namespace Pioj

/-- A value found in a JIRA estimation custom field: int, float, string,
dict (with optional `value` and `name` keys, other keys unobserved), or
any other type embedded by its display string (`str(v)`). -/
inductive EstValue where
  | eint (n : Int)
  | efloat (q : Rat)
  | estr (s : String)
  | eobj (value : Option String) (name : Option String)
  | eother (display : String)
  deriving DecidableEq

/-- An element of a JIRA sprint field array: a legacy bracketed string or
a structured object with optional `name` / `state` keys. -/
inductive SprintElem where
  | sstr (s : String)
  | sobj (name : Option String) (state : Option String)
  deriving DecidableEq

/-- A changelog entry as stored in `ticket_details['changes']`
(server.py lines 307-314). `date_iso` is the instant used for window
filtering; `date` is its display rendering. -/
structure Change where
  date : String
  date_iso : Int
  author : String
  field : String
  from_val : String
  to_val : String
  deriving DecidableEq

/-- A comment entry as stored in `ticket_details['comments']`
(server.py lines 329-334). -/
structure Comment where
  date : String
  date_iso : Int
  author : String
  body : String
  deriving DecidableEq

/-- The normalized per-ticket record built by `get_cached_ticket_details`
(server.py lines 244-256) and stored whole in the durable cache. -/
structure TicketRecord where
  key : String
  summary : String
  status : String
  assignee : String
  priority : String
  description : String
  estimation : Option EstValue
  sprint : Option String
  sprint_state : Option String
  changes : List Change
  comments : List Comment
  deriving DecidableEq

/-- A durable cache entry `{cached_at, data}` (server.py lines 337-340).
`cached_at` is Option because a hand-edited or legacy cache.json entry
may lack the key (`is_cache_fresh` guards for it). -/
structure CacheEntry where
  cached_at : Option Int
  data : TicketRecord
  deriving DecidableEq

/-- The durable cache mapping from ticket key to entry (cache.json). -/
def Cache : Type := List (String × CacheEntry)

instance : DecidableEq Cache := by
  unfold Cache
  infer_instance

/-- Python dict assignment `m[k] = v` on an association list: overwrite
the existing binding or append a new one. -/
def set_assoc {β : Type} (m : List (String × β)) (k : String) (v : β) :
    List (String × β) :=
  if m.any (fun p => p.1 == k) then
    m.map (fun p => if p.1 == k then (k, v) else p)
  else m ++ [(k, v)]

/-- CACHE_EXPIRY_HOURS constant (server.py line 17). -/
def CACHE_EXPIRY_HOURS : Int := 1

/-- Outcome of attempting to read cache.json: the file exists and parses
to a mapping, the file is absent, or opening or parsing raised. -/
inductive LoadOutcome where
  | ok (m : Cache)
  | missing
  | ioError
  deriving DecidableEq

/-- Outcome of attempting to write cache.json. -/
inductive SaveOutcome where
  | ok
  | ioError
  deriving DecidableEq

/-- load_cache (server.py lines 147-155): return the parsed mapping when
the file exists and parses; on a missing file or any exception, return
the empty mapping. -/
def load_cache : LoadOutcome → Cache
  | .ok m => m
  | .missing => []
  | .ioError => []

/-- The body of save_cache's try block: the raw file write, which can
fail. -/
def try_write_cache (_cache : Cache) (oc : SaveOutcome) : Except String Unit :=
  match oc with
  | .ok => Except.ok ()
  | .ioError => Except.error "Error saving cache"

/-- save_cache (server.py lines 157-163): attempt the write and swallow
any exception (the except branch only prints). -/
def save_cache (cache : Cache) (oc : SaveOutcome) : Except String Unit :=
  match try_write_cache cache oc with
  | .ok u => Except.ok u
  | .error _ => Except.ok ()

/-- is_cache_fresh (server.py lines 165-175): false for a missing or
empty entry or one without `cached_at`; otherwise fresh iff
`now - cached_at < timedelta(hours=hours)`.  The `hours` parameter is
always passed as CACHE_EXPIRY_HOURS in the repository (the Python
default). -/
def is_cache_fresh (cached_data : Option CacheEntry) (now : Int)
    (hours : Int) : Bool :=
  match cached_data with
  | none => false
  | some e =>
    match e.cached_at with
    | none => false
    | some cached_at => decide (now - cached_at < hours * 3600)

/-- Display rendering of an instant (models
`created.strftime('%Y-%m-%d %H:%M')`); the exact format is irrelevant to
every property proved here. -/
def date_display (t : Int) : String := toString t

/-- The change-filtering loop of filter_ticket_data_by_date (server.py
lines 187-197): keep an entry iff its `date_iso` instant is at or after
the cutoff, rebuilding each kept entry field by field as the code does. -/
def filter_changes (cutoff : Int) : List Change → List Change
  | [] => []
  | c :: rest =>
    if cutoff ≤ c.date_iso then
      { date := c.date
        date_iso := c.date_iso
        author := c.author
        field := c.field
        from_val := c.from_val
        to_val := c.to_val } :: filter_changes cutoff rest
    else filter_changes cutoff rest

/-- The comment-filtering loop of filter_ticket_data_by_date (server.py
lines 200-208). -/
def filter_comments (cutoff : Int) : List Comment → List Comment
  | [] => []
  | c :: rest =>
    if cutoff ≤ c.date_iso then
      { date := c.date
        date_iso := c.date_iso
        author := c.author
        body := c.body } :: filter_comments cutoff rest
    else filter_comments cutoff rest

/-- filter_ticket_data_by_date (server.py lines 177-210): shallow-copy
the record and replace `changes` and `comments` by the entries at or
after `now - timedelta(days=days)`. -/
def filter_ticket_data_by_date (full_data : TicketRecord) (days : Int)
    (now : Int) : TicketRecord :=
  let cutoff_date := now - days * 86400
  { full_data with
    changes := filter_changes cutoff_date full_data.changes
    comments := filter_comments cutoff_date full_data.comments }

/-- Python str.lower() on the ASCII strings this code handles (field
names, sprint states), written over the character list so the kernel can
evaluate it. -/
def py_lower (s : String) : String :=
  String.mk (s.data.map Char.toLower)

/-- Python `a or b` on optional strings: `b` whenever `a` is None or the
empty string (falsy), else `a`. -/
def py_or_str (a b : Option String) : Option String :=
  match a with
  | some s => if s = "" then b else some s
  | none => b

/-- The estimation branch of parse_issue (server.py lines 592-608),
applied to a non-None estimation value: whole float to int, other
numerics kept, string verbatim, dict to `get('value') or get('name')`,
anything else to `str(v)`.  Returns none exactly when the dict branch
yields a falsy result for both keys (story_points stays None). -/
def normalize_estimation : EstValue → Option EstValue
  | .eint n => some (.eint n)
  | .efloat q => if q.den = 1 then some (.eint q.num) else some (.efloat q)
  | .estr s => some (.estr s)
  | .eobj v nm => (py_or_str v nm).map EstValue.estr
  | .eother d => some (.estr d)

/-- The capture group `([^,\]]+)` read greedily: the maximal run of
characters that are neither a comma nor a closing bracket. -/
def capture_chars (s : List Char) : List Char :=
  s.takeWhile (fun c => !(c == ',' || c == ']'))

/-- re.search for the pattern `<pat>([^,\]]+)`: scan start positions left
to right; where the literal `pat` matches and the following capture is
non-empty, return the capture; otherwise keep scanning (server.py lines
278-279 and 625-626 use pat = "name=" and pat = "state="). -/
def re_search_kv (pat : List Char) : List Char → Option (List Char)
  | [] => none
  | c :: rest =>
    if pat.isPrefixOf (c :: rest) then
      let cap := capture_chars ((c :: rest).drop pat.length)
      if cap.isEmpty then re_search_kv pat rest else some cap
    else re_search_kv pat rest

/-- String-level wrapper for re_search_kv returning the captured text. -/
def re_search_capture (pat s : String) : Option String :=
  (re_search_kv pat.toList s.toList).map (fun cs => String.mk cs)

/-- Handling of the last element of a sprint array (server.py lines
274-288, identical at 620-635): a legacy string is pattern-matched for
`name=` and `state=` (state lower-cased); a dict yields its `name` (with
default "Unknown Sprint") and its `state` (None or missing read as "")
lower-cased. -/
def sprint_of_last : SprintElem → Option String × Option String
  | .sstr s =>
    (re_search_capture "name=" s, (re_search_capture "state=" s).map py_lower)
  | .sobj nm st => (some (nm.getD "Unknown Sprint"), some (py_lower (st.getD "")))

/-- Sprint extraction (server.py lines 269-288 in
get_cached_ticket_details; lines 614-635 in parse_issue are the same
code): no sprint for an absent or empty field, else the last array
element wins. -/
def extract_sprint : Option (List SprintElem) → Option String × Option String
  | none => (none, none)
  | some l =>
    match l.getLast? with
    | none => (none, none)
    | some last_sprint => sprint_of_last last_sprint

/-- A raw JIRA object carrying only a `name` attribute that the code
reads defensively (status, priority). -/
structure RawNamed where
  name : Option String
  deriving DecidableEq

/-- A raw JIRA user object; only `displayName` is read. -/
structure RawUser where
  displayName : Option String
  deriving DecidableEq

/-- One item of a raw changelog history (field, fromString, toString),
each attribute possibly absent. -/
structure RawHistoryItem where
  field : Option String
  fromString : Option String
  toString : Option String
  deriving DecidableEq

/-- One raw changelog history event.  `created` is the parsed instant of
the ISO timestamp; none models an absent or falsy `created`. -/
structure RawHistory where
  created : Option Int
  author : Option RawUser
  items : List RawHistoryItem
  deriving DecidableEq

/-- One raw comment object. -/
structure RawComment where
  created : Option Int
  author : Option RawUser
  body : Option String
  deriving DecidableEq

/-- The `fields` attribute of a raw issue.  `estimation` and `sprint`
hold the values getattr would return at the resolved estimation and
sprint custom-field ids. -/
structure RawFields where
  summary : Option String
  status : Option RawNamed
  assignee : Option RawUser
  priority : Option RawNamed
  description : Option String
  estimation : Option EstValue
  sprint : Option (List SprintElem)
  comment : Option (List RawComment)
  deriving DecidableEq

/-- A raw issue as returned by the upstream fetch with changelog
expanded.  `changelog = none` models an absent or falsy changelog. -/
structure RawIssue where
  fields : RawFields
  changelog : Option (List RawHistory)
  deriving DecidableEq

/-- Python `x if x else 'None'` applied after a defensive attribute read:
an absent, None or empty-string value becomes the literal "None"
(server.py lines 312-313). -/
def none_if_empty (o : Option String) : String :=
  match o with
  | none => "None"
  | some s => if s = "" then "None" else s

/-- The changelog extraction loop body for one history (server.py lines
293-314): skip a history without a truthy `created`; emit one change
entry per item, defaulting author to "Unknown", field to "", and
from/to to "None". -/
def change_entries_of_history (h : RawHistory) : List Change :=
  match h.created with
  | none => []
  | some created =>
    h.items.map (fun item =>
      { date := date_display created
        date_iso := created
        author :=
          match h.author with
          | some a => a.displayName.getD "Unknown"
          | none => "Unknown"
        field := item.field.getD ""
        from_val := none_if_empty item.fromString
        to_val := none_if_empty item.toString })

/-- The comment extraction loop body for one comment (server.py lines
320-334). -/
def comment_entries_of_comment (c : RawComment) : List Comment :=
  match c.created with
  | none => []
  | some created =>
    [{ date := date_display created
       date_iso := created
       author :=
         match c.author with
         | some a => a.displayName.getD "Unknown"
         | none => "Unknown"
       body := c.body.getD "" }]

/-- Building ticket_details from a fetched raw issue (server.py lines
239-334).  `er` / `sr` say whether get_estimation_field_id /
get_sprint_field_id resolved (their truthiness guards at lines 260 and
268). -/
def build_ticket_details (ticket_key : String) (issue : RawIssue)
    (er sr : Bool) : TicketRecord :=
  let fields := issue.fields
  let sprint_pair :=
    if sr then extract_sprint fields.sprint else (none, none)
  { key := ticket_key
    summary := fields.summary.getD "No summary"
    status :=
      match fields.status with
      | some st => st.name.getD "Unknown"
      | none => "Unknown"
    assignee :=
      match fields.assignee with
      | some a => a.displayName.getD "Unassigned"
      | none => "Unassigned"
    priority :=
      match fields.priority with
      | some p => p.name.getD "None"
      | none => "None"
    description := fields.description.getD ""
    estimation := if er then fields.estimation else none
    sprint := sprint_pair.1
    sprint_state := sprint_pair.2
    changes :=
      match issue.changelog with
      | none => []
      | some histories => histories.flatMap change_entries_of_history
    comments :=
      match fields.comment with
      | none => []
      | some cs => cs.flatMap comment_entries_of_comment }

/-- The fetch-and-recache branch of get_cached_ticket_details (server.py
lines 226-346): raise when the client is unconfigured, propagate a fetch
failure, otherwise normalize, overwrite the entry with the complete
record stamped `now`, persist (swallowing write failures) and return the
windowed projection with `_cache_hit = False`.  The result carries the
upstream fetch count and the list of mappings handed to save_cache. -/
def fetch_ticket_path (cache : Cache) (so : SaveOutcome) (jc : Bool)
    (fetch : Except String RawIssue) (er sr : Bool) (ticket_key : String)
    (days : Int) (now : Int) :
    Except String (TicketRecord × Bool) × Nat × List Cache :=
  if !jc then (Except.error "JIRA client not configured", 0, [])
  else
    match fetch with
    | .error e => (Except.error e, 1, [])
    | .ok issue =>
      let ticket_details := build_ticket_details ticket_key issue er sr
      let newCache :=
        set_assoc cache ticket_key
          { cached_at := some now, data := ticket_details }
      match save_cache newCache so with
      | .error e => (Except.error e, 1, [newCache])
      | .ok _ =>
        (Except.ok (filter_ticket_data_by_date ticket_details days now, false),
         1, [newCache])

/-- get_cached_ticket_details (server.py lines 212-346): load the
mapping, return the windowed projection of a fresh entry with
`_cache_hit = True` (no fetch, no save), else take the fetch path. -/
def get_cached_ticket_details (lo : LoadOutcome) (so : SaveOutcome)
    (jc : Bool) (fetch : Except String RawIssue) (er sr : Bool)
    (ticket_key : String) (days : Int) (now : Int) :
    Except String (TicketRecord × Bool) × Nat × List Cache :=
  match List.lookup ticket_key (load_cache lo) with
  | some entry =>
    if is_cache_fresh (some entry) now CACHE_EXPIRY_HOURS then
      (Except.ok (filter_ticket_data_by_date entry.data days now, true), 0, [])
    else fetch_ticket_path (load_cache lo) so jc fetch er sr ticket_key days now
  | none => fetch_ticket_path (load_cache lo) so jc fetch er sr ticket_key days now

/-- One raw field definition from the bulk field fetch
(jira_client.fields()), read with dict.get. -/
structure RawFieldDef where
  id : Option String
  name : Option String
  custom : Bool
  deriving DecidableEq

/-- The population loop of get_custom_field_id (server.py lines 362-369):
map each custom field's lower-cased display name to its id, skipping
falsy names and ids; later duplicates overwrite. -/
def build_field_cache (field_defs : List RawFieldDef) :
    List (String × String) :=
  field_defs.foldl
    (fun acc f =>
      if f.custom then
        let nm := py_lower (f.name.getD "")
        match f.id with
        | some fid => if nm ≠ "" ∧ fid ≠ "" then set_assoc acc nm fid else acc
        | none => acc
      else acc) []

/-- get_custom_field_id (server.py lines 348-374) against a populated
field map: none when the client is unconfigured; otherwise the early
exact-key lookup (line 356) followed by the lower-cased lookup (line
374).  The lazy bulk fetch that populates the map (lines 359-371) is
I/O; the populated map is a parameter, built by build_field_cache. -/
def get_custom_field_id (jc : Bool) (field_map : List (String × String))
    (field_name : String) : Option String :=
  if !jc then none
  else
    match List.lookup field_name field_map with
    | some fid => some fid
    | none => List.lookup (py_lower field_name) field_map

/-- The fixed fallback list of common estimation field names (server.py
lines 385-394), in source order. -/
def estimation_common_names : List String :=
  ["Story point estimate", "Story Points", "Points", "Estimate",
   "Story points", "Effort", "T-Shirt Size", "Size"]

/-- The fixed fallback list of common sprint field names (server.py
lines 412-417), in source order. -/
def sprint_common_names : List String :=
  ["Sprint", "Sprints", "Active Sprint", "Active Sprints"]

/-- get_estimation_field_id (server.py lines 376-401): a truthy
configured override that resolves wins; otherwise the first common name
that resolves; otherwise none. -/
def get_estimation_field_id (jc : Bool)
    (field_map : List (String × String)) (estimation_field : String) :
    Option String :=
  let override :=
    if estimation_field ≠ "" then
      get_custom_field_id jc field_map estimation_field
    else none
  match override with
  | some fid => some fid
  | none =>
    estimation_common_names.findSome?
      (fun n => get_custom_field_id jc field_map n)

/-- get_sprint_field_id (server.py lines 403-424). -/
def get_sprint_field_id (jc : Bool) (field_map : List (String × String))
    (sprint_field : String) : Option String :=
  let override :=
    if sprint_field ≠ "" then
      get_custom_field_id jc field_map sprint_field
    else none
  match override with
  | some fid => some fid
  | none =>
    sprint_common_names.findSome?
      (fun n => get_custom_field_id jc field_map n)

/-- Does a history event contain an item whose `field` attribute exists
and equals "status"? -/
def has_status_item (h : RawHistory) : Bool :=
  h.items.any (fun item => item.field == some "status")

/-- The status-change scan loop of parse_issue (server.py lines 714-721)
over an already-reversed history list: at the first event carrying a
status item, take its `created`; when that is absent (None, hence
falsy), the outer loop keeps scanning older events. -/
def scan_status_change : List RawHistory → Option Int
  | [] => none
  | h :: rest =>
    if has_status_item h then
      match h.created with
      | some t => some t
      | none => scan_status_change rest
    else scan_status_change rest

/-- statusChangeDate as computed by parse_issue (server.py lines
709-721): scan `reversed(histories)` for the first status-changing
event. -/
def parse_issue_status_change_date (changelog : Option (List RawHistory)) :
    Option Int :=
  match changelog with
  | none => none
  | some histories => scan_status_change histories.reverse

/-- The backfill scan loop of search_issues (server.py lines 525-532),
written out separately because it is a second copy of the same loop in
the source. -/
def backfill_scan : List RawHistory → Option Int
  | [] => none
  | h :: rest =>
    if has_status_item h then
      match h.created with
      | some t => some t
      | none => backfill_scan rest
    else backfill_scan rest

/-- The status-change backfill of search_issues (server.py lines
514-535) for one ticket: a failed changelog fetch is swallowed and the
field stays absent; otherwise scan `reversed(histories)` as
parse_issue does. -/
def backfill_status_change_date
    (fetched : Except String (Option (List RawHistory))) : Option Int :=
  match fetched with
  | .error _ => none
  | .ok changelog =>
    match changelog with
    | none => none
    | some histories => backfill_scan histories.reverse

/-- The full estimation handling of parse_issue (server.py lines
587-608): story_points stays None unless the estimation field resolved
and carries a non-None value, which is then normalized. -/
def parse_issue_story_points (er : Bool)
    (estimation_value : Option EstValue) : Option EstValue :=
  if er then
    match estimation_value with
    | none => none
    | some v => normalize_estimation v
  else none

/-- The change-filtering loop is List.filter on the date predicate (the
entry rebuilt field by field is the entry itself). -/
theorem filter_changes_eq_filter (cutoff : Int) (l : List Change) :
    filter_changes cutoff l
      = l.filter (fun c => decide (cutoff ≤ c.date_iso)) := by
  induction l with
  | nil => rfl
  | cons c rest ih =>
    by_cases h : cutoff ≤ c.date_iso
    · simp [filter_changes, h, ih]
    · simp [filter_changes, h, ih]

/-- The comment-filtering loop is List.filter on the date predicate. -/
theorem filter_comments_eq_filter (cutoff : Int) (l : List Comment) :
    filter_comments cutoff l
      = l.filter (fun c => decide (cutoff ≤ c.date_iso)) := by
  induction l with
  | nil => rfl
  | cons c rest ih =>
    by_cases h : cutoff ≤ c.date_iso
    · simp [filter_comments, h, ih]
    · simp [filter_comments, h, ih]

/-- C2: for every cache entry with a cached_at timestamp t0 and every
time now, is_cache_fresh returns true iff now - t0 < TTL (TTL = 1 hour =
3600 s at the repository's CACHE_EXPIRY_HOURS = 1); a missing or empty
entry, or one without cached_at, is never fresh. -/
theorem is_cache_fresh_iff_ttl :
    (∀ (e : CacheEntry) (t0 now : Int), e.cached_at = some t0 →
        (is_cache_fresh (some e) now CACHE_EXPIRY_HOURS = true ↔
          now - t0 < 3600))
    ∧ (∀ now : Int, is_cache_fresh none now CACHE_EXPIRY_HOURS = false)
    ∧ (∀ (e : CacheEntry) (now : Int), e.cached_at = none →
        is_cache_fresh (some e) now CACHE_EXPIRY_HOURS = false) := by
  refine ⟨fun e t0 now h => ?_, fun now => rfl, fun e now h => ?_⟩
  · simp [is_cache_fresh, h, CACHE_EXPIRY_HOURS]
  · simp [is_cache_fresh, h]

/-- Sample full ticket record used by concrete witnesses. -/
def sample_record : TicketRecord :=
  { key := "ABC-1"
    summary := "Sample ticket"
    status := "In Progress"
    assignee := "Dana"
    priority := "High"
    description := "sample"
    estimation := some (.eint 3)
    sprint := some "Sprint 7"
    sprint_state := some "active"
    changes :=
      [{ date := "old", date_iso := 100, author := "A", field := "status",
         from_val := "To Do", to_val := "In Progress" },
       { date := "new", date_iso := 900000, author := "B", field := "status",
         from_val := "In Progress", to_val := "Review" }]
    comments :=
      [{ date := "old", date_iso := 100, author := "A", body := "first" },
       { date := "new", date_iso := 900000, author := "B", body := "second" }] }

/-- Witness for C2 at a concrete entry: cached_at 1000 read at 1500 is
fresh under the one-hour TTL. -/
theorem is_cache_fresh_iff_ttl_witness :
    ({ cached_at := some 1000, data := sample_record } : CacheEntry).cached_at
        = some 1000
    ∧ is_cache_fresh (some { cached_at := some 1000, data := sample_record })
        1500 CACHE_EXPIRY_HOURS = true :=
  ⟨rfl,
   (is_cache_fresh_iff_ttl.1 { cached_at := some 1000, data := sample_record }
      1000 1500 rfl).mpr (by decide)⟩

/-- C3: filter_ticket_data_by_date is a pure projection: changes and
comments are replaced by the subsequence of entries dated at or after
the cutoff now - days, in original order (List.filter), and every other
field is unchanged. -/
theorem projection_functional_spec (R : TicketRecord) (days now : Int) :
    (filter_ticket_data_by_date R days now).changes
        = R.changes.filter (fun c => decide (now - days * 86400 ≤ c.date_iso))
    ∧ (filter_ticket_data_by_date R days now).comments
        = R.comments.filter (fun c => decide (now - days * 86400 ≤ c.date_iso))
    ∧ (filter_ticket_data_by_date R days now).key = R.key
    ∧ (filter_ticket_data_by_date R days now).summary = R.summary
    ∧ (filter_ticket_data_by_date R days now).status = R.status
    ∧ (filter_ticket_data_by_date R days now).assignee = R.assignee
    ∧ (filter_ticket_data_by_date R days now).priority = R.priority
    ∧ (filter_ticket_data_by_date R days now).description = R.description
    ∧ (filter_ticket_data_by_date R days now).estimation = R.estimation
    ∧ (filter_ticket_data_by_date R days now).sprint = R.sprint
    ∧ (filter_ticket_data_by_date R days now).sprint_state = R.sprint_state := by
  refine ⟨?_, ?_, rfl, rfl, rfl, rfl, rfl, rfl, rfl, rfl, rfl⟩
  · exact filter_changes_eq_filter _ _
  · exact filter_comments_eq_filter _ _

/-- C4: projection is idempotent at a fixed window and time, and
monotone in the window size: a strictly smaller window yields a
subsequence of the changes and of the comments. -/
theorem projection_idempotent_monotone (R : TicketRecord)
    (w now w1 w2 : Int) (hw : w1 < w2) :
    filter_ticket_data_by_date (filter_ticket_data_by_date R w now) w now
        = filter_ticket_data_by_date R w now
    ∧ List.Sublist (filter_ticket_data_by_date R w1 now).changes
        (filter_ticket_data_by_date R w2 now).changes
    ∧ List.Sublist (filter_ticket_data_by_date R w1 now).comments
        (filter_ticket_data_by_date R w2 now).comments := by
  refine ⟨?_, ?_, ?_⟩
  · cases R
    simp only [filter_ticket_data_by_date, filter_changes_eq_filter,
      filter_comments_eq_filter, List.filter_filter]
    congr 1
    · apply List.filter_congr
      intro c _
      simp
    · apply List.filter_congr
      intro c _
      simp
  · simp only [filter_ticket_data_by_date, filter_changes_eq_filter]
    apply List.monotone_filter_right
    intro c hc
    simp only [decide_eq_true_eq] at hc ⊢
    omega
  · simp only [filter_ticket_data_by_date, filter_comments_eq_filter]
    apply List.monotone_filter_right
    intro c hc
    simp only [decide_eq_true_eq] at hc ⊢
    omega

/-- Witness for C4 at the sample record with windows 1 < 2 evaluated at
time 1000000. -/
theorem projection_idempotent_monotone_witness :
    (1 : Int) < 2
    ∧ (filter_ticket_data_by_date
          (filter_ticket_data_by_date sample_record 3 1000000) 3 1000000
        = filter_ticket_data_by_date sample_record 3 1000000
      ∧ List.Sublist (filter_ticket_data_by_date sample_record 1 1000000).changes
          (filter_ticket_data_by_date sample_record 2 1000000).changes
      ∧ List.Sublist (filter_ticket_data_by_date sample_record 1 1000000).comments
          (filter_ticket_data_by_date sample_record 2 1000000).comments) :=
  ⟨by decide,
   projection_idempotent_monotone sample_record 3 1000000 1 2 (by decide)⟩

/-- C1: on a fresh cache hit, get_cached_ticket_details performs no
upstream fetch (fetch count 0), hands nothing to save_cache (no durable
write, hence the stored entry keeps its cached_at, changes and
comments), and returns the stored record projected to the window with
the cache-hit flag true. -/
theorem fresh_hit_frame (lo : LoadOutcome) (so : SaveOutcome) (jc : Bool)
    (fetch : Except String RawIssue) (er sr : Bool) (key : String)
    (days now : Int) (entry : CacheEntry)
    (hlook : List.lookup key (load_cache lo) = some entry)
    (hfresh : is_cache_fresh (some entry) now CACHE_EXPIRY_HOURS = true) :
    get_cached_ticket_details lo so jc fetch er sr key days now
      = (Except.ok (filter_ticket_data_by_date entry.data days now, true),
         0, []) := by
  unfold get_cached_ticket_details
  simp [hlook, hfresh]

/-- Sample durable cache holding one entry for ABC-1 stamped at 1000. -/
def fresh_cache : Cache :=
  [("ABC-1", { cached_at := some 1000, data := sample_record })]

/-- Witness for C1: a concrete fresh hit at time 1500 with a failing
fetch parameter, showing the fetch is never consulted. -/
theorem fresh_hit_frame_witness :
    List.lookup "ABC-1" (load_cache (.ok fresh_cache))
        = some { cached_at := some 1000, data := sample_record }
    ∧ is_cache_fresh (some { cached_at := some 1000, data := sample_record })
        1500 CACHE_EXPIRY_HOURS = true
    ∧ get_cached_ticket_details (.ok fresh_cache) .ok true
        (Except.error "network down") true true "ABC-1" 7 1500
      = (Except.ok
          (filter_ticket_data_by_date sample_record 7 1500, true), 0, []) :=
  ⟨by decide, by decide,
   fresh_hit_frame (.ok fresh_cache) .ok true (Except.error "network down")
     true true "ABC-1" 7 1500 { cached_at := some 1000, data := sample_record }
     (by decide) (by decide)⟩

/-- C5: on a miss or stale entry, a failed upstream path (client
unconfigured, or the fetch raising) makes the call fail with that
error, with nothing ever handed to save_cache: the durable mapping is
exactly as before the call. -/
theorem fetch_failure_preserves_cache (lo : LoadOutcome) (so : SaveOutcome)
    (jc : Bool) (fetch : Except String RawIssue) (er sr : Bool)
    (key : String) (days now : Int)
    (hmiss : ∀ entry, List.lookup key (load_cache lo) = some entry →
        is_cache_fresh (some entry) now CACHE_EXPIRY_HOURS = false) :
    (jc = false →
       get_cached_ticket_details lo so jc fetch er sr key days now
         = (Except.error "JIRA client not configured", 0, []))
    ∧ (∀ e, jc = true → fetch = Except.error e →
       get_cached_ticket_details lo so jc fetch er sr key days now
         = (Except.error e, 1, [])) := by
  unfold get_cached_ticket_details
  cases hl : List.lookup key (load_cache lo) with
  | none =>
    refine ⟨fun hjc => ?_, fun e hjc hf => ?_⟩
    · subst hjc
      simp [hl, fetch_ticket_path]
    · subst hjc
      subst hf
      simp [hl, fetch_ticket_path]
  | some entry =>
    have hstale := hmiss entry hl
    refine ⟨fun hjc => ?_, fun e hjc hf => ?_⟩
    · subst hjc
      simp [hl, hstale, fetch_ticket_path]
    · subst hjc
      subst hf
      simp [hl, hstale, fetch_ticket_path]

/-- Witness for C5: a concrete miss (empty cache) with a failing fetch
leaves the mapping untouched and surfaces the fetch error. -/
theorem fetch_failure_preserves_cache_witness :
    (∀ entry, List.lookup "ABC-1" (load_cache (.ok [])) = some entry →
        is_cache_fresh (some entry) 1500 CACHE_EXPIRY_HOURS = false)
    ∧ get_cached_ticket_details (.ok []) .ok true
        (Except.error "network down") true true "ABC-1" 7 1500
      = (Except.error "network down", 1, []) :=
  ⟨fun entry h => by simp [load_cache] at h,
   (fetch_failure_preserves_cache (.ok []) .ok true
      (Except.error "network down") true true "ABC-1" 7 1500
      (fun entry h => by simp [load_cache] at h)).2 "network down" rfl rfl⟩

/-- C10: persistence failures never surface from the detail-cache path:
a load failure (missing file, unreadable or invalid JSON) behaves
exactly like the empty mapping and hence as a universal miss; the save
outcome never changes what the call returns; and every error the call
can return is the not-configured error or the fetch's own error — never
a persistence error. -/
theorem persistence_never_surfaces :
    (∀ (so : SaveOutcome) (jc : Bool) (fetch : Except String RawIssue)
        (er sr : Bool) (key : String) (days now : Int),
       get_cached_ticket_details .ioError so jc fetch er sr key days now
         = get_cached_ticket_details (.ok []) so jc fetch er sr key days now
       ∧ get_cached_ticket_details .missing so jc fetch er sr key days now
         = get_cached_ticket_details (.ok []) so jc fetch er sr key days now
       ∧ ∀ k, List.lookup k (load_cache .ioError) = none)
    ∧ (∀ (lo : LoadOutcome) (jc : Bool) (fetch : Except String RawIssue)
        (er sr : Bool) (key : String) (days now : Int),
       get_cached_ticket_details lo .ok jc fetch er sr key days now
         = get_cached_ticket_details lo .ioError jc fetch er sr key days now)
    ∧ (∀ (lo : LoadOutcome) (so : SaveOutcome) (jc : Bool)
        (fetch : Except String RawIssue) (er sr : Bool) (key : String)
        (days now : Int) (e : String),
       (get_cached_ticket_details lo so jc fetch er sr key days now).1
         = Except.error e →
       e = "JIRA client not configured" ∨ fetch = Except.error e) := by
  refine ⟨fun so jc fetch er sr key days now => ⟨rfl, rfl, fun k => rfl⟩,
    fun lo jc fetch er sr key days now => ?_,
    fun lo so jc fetch er sr key days now e herr => ?_⟩
  · unfold get_cached_ticket_details
    cases List.lookup key (load_cache lo) with
    | none =>
      unfold fetch_ticket_path
      cases jc with
      | false => rfl
      | true =>
        cases fetch with
        | error e => rfl
        | ok issue => rfl
    | some entry =>
      by_cases hfresh : is_cache_fresh (some entry) now CACHE_EXPIRY_HOURS
      · simp [hfresh]
      · simp only [hfresh, Bool.false_eq_true, if_false]
        unfold fetch_ticket_path
        cases jc with
        | false => rfl
        | true =>
          cases fetch with
          | error e => rfl
          | ok issue => rfl
  · unfold get_cached_ticket_details at herr
    cases hl : List.lookup key (load_cache lo) with
    | none =>
      rw [hl] at herr
      unfold fetch_ticket_path at herr
      cases jc with
      | false =>
        simp at herr
        exact Or.inl herr.symm
      | true =>
        cases hf : fetch with
        | error e0 =>
          rw [hf] at herr
          simp at herr
          subst herr
          exact Or.inr rfl
        | ok issue =>
          rw [hf] at herr
          cases so with
          | ok => simp [save_cache, try_write_cache] at herr
          | ioError => simp [save_cache, try_write_cache] at herr
    | some entry =>
      rw [hl] at herr
      by_cases hfresh : is_cache_fresh (some entry) now CACHE_EXPIRY_HOURS
      · simp [hfresh] at herr
      · simp only [hfresh, Bool.false_eq_true, if_false] at herr
        unfold fetch_ticket_path at herr
        cases jc with
        | false =>
          simp at herr
          exact Or.inl herr.symm
        | true =>
          cases hf : fetch with
          | error e0 =>
            rw [hf] at herr
            simp at herr
            subst herr
            exact Or.inr rfl
          | ok issue =>
            rw [hf] at herr
            cases so with
            | ok => simp [save_cache, try_write_cache] at herr
            | ioError => simp [save_cache, try_write_cache] at herr

/-- Witness for C10: against an unreadable cache file and an
unconfigured client, the call's error is the not-configured error. -/
theorem persistence_never_surfaces_witness :
    (get_cached_ticket_details .ioError .ioError false
        (Except.error "network down") true true "ABC-1" 7 1500).1
      = Except.error "JIRA client not configured"
    ∧ ("JIRA client not configured" = "JIRA client not configured"
       ∨ (Except.error "network down" : Except String RawIssue)
           = Except.error "JIRA client not configured") :=
  ⟨rfl,
   persistence_never_surfaces.2.2 .ioError .ioError false
     (Except.error "network down") true true "ABC-1" 7 1500
     "JIRA client not configured" rfl⟩

/-- A raw issue whose estimation field holds the float 5.0. -/
def raw_float_est : RawIssue :=
  { fields :=
      { summary := some "Sample"
        status := none
        assignee := none
        priority := none
        description := none
        estimation := some (.efloat 5)
        sprint := none
        comment := none }
    changelog := none }

/-- Counterexample to C6: on the detail-cache fetch path the stored
estimation for the float 5.0 is the float itself, while the stated
policy (and parse_issue, which implements it) yields the integer 5; the
two stored values differ.  The detail path (server.py lines 258-263)
assigns the raw value without any normalization. -/
theorem detail_path_estimation_not_normalized :
    (build_ticket_details "ABC-1" raw_float_est true true).estimation
        = some (.efloat 5)
    ∧ parse_issue_story_points true (some (.efloat 5)) = some (.eint 5)
    ∧ some (EstValue.efloat 5) ≠ some (EstValue.eint 5) :=
  ⟨rfl, by decide, by decide⟩

/-- C6 amended: the search-result parser normalizes estimation exactly
per the policy (whole numeric to integer, non-whole numeric kept as a
decimal, string verbatim, object to its value key when non-empty and
otherwise its name key, any other type to its display string), while
the detail-cache fetch path performs no normalization and stores the
raw estimation value verbatim. -/
theorem estimation_policy_amended :
    (∀ n : Int, normalize_estimation (.eint n) = some (.eint n))
    ∧ (∀ q : Rat, q.den = 1 →
        normalize_estimation (.efloat q) = some (.eint q.num))
    ∧ (∀ q : Rat, q.den ≠ 1 →
        normalize_estimation (.efloat q) = some (.efloat q))
    ∧ (∀ s : String, normalize_estimation (.estr s) = some (.estr s))
    ∧ (∀ (s : String) (nm : Option String), s ≠ "" →
        normalize_estimation (.eobj (some s) nm) = some (.estr s))
    ∧ (∀ nm : Option String,
        normalize_estimation (.eobj none nm) = nm.map EstValue.estr)
    ∧ (∀ d : String, normalize_estimation (.eother d) = some (.estr d))
    ∧ (∀ v : Option EstValue, parse_issue_story_points true v
        = v.bind normalize_estimation)
    ∧ (∀ (k : String) (raw : RawIssue) (sr : Bool),
        (build_ticket_details k raw true sr).estimation
          = raw.fields.estimation) := by
  refine ⟨fun n => rfl, fun q hq => ?_, fun q hq => ?_, fun s => rfl,
    fun s nm hs => ?_, fun nm => rfl, fun d => rfl, fun v => ?_,
    fun k raw sr => rfl⟩
  · simp [normalize_estimation, hq]
  · simp [normalize_estimation, hq]
  · simp [normalize_estimation, py_or_str, hs]
  · cases v with
    | none => rfl
    | some v => rfl

/-- Witness for the C6 amended claim at the spec's own examples: 5.0
becomes 5, 4.5 stays 4.5, and a {value: M} object becomes "M". -/
theorem estimation_policy_amended_witness :
    ((5 : Rat).den = 1 ∧ normalize_estimation (.efloat 5)
        = some (.eint (5 : Rat).num))
    ∧ ((mkRat 9 2).den ≠ 1 ∧ normalize_estimation (.efloat (mkRat 9 2))
        = some (.efloat (mkRat 9 2)))
    ∧ ("M" ≠ "" ∧ normalize_estimation (.eobj (some "M") none)
        = some (.estr "M")) :=
  ⟨⟨by decide, estimation_policy_amended.2.1 5 (by decide)⟩,
   ⟨by decide, estimation_policy_amended.2.2.1 (mkRat 9 2) (by decide)⟩,
   ⟨by decide, estimation_policy_amended.2.2.2.2.1 "M" none (by decide)⟩⟩

/-- The legacy sprint string of the spec's concrete example. -/
def legacy_sprint_string : String :=
  "com.atlassian.greenhopper.service.sprint.Sprint@14b1c359[id=1,rapidViewId=2,state=ACTIVE,name=Sprint 7,startDate=2025-01-01]"

/-- C7: sprint extraction: an absent or empty field yields no sprint;
the last element of a non-empty list wins; a legacy string yields the
name= and state= captures (state lower-cased); an object element yields
its name and its lower-cased state; and on the concrete legacy string
the name is "Sprint 7" and the state is "active". -/
theorem sprint_extraction_policy :
    extract_sprint none = (none, none)
    ∧ extract_sprint (some []) = (none, none)
    ∧ (∀ (l : List SprintElem) (e : SprintElem),
        extract_sprint (some (l ++ [e])) = extract_sprint (some [e]))
    ∧ (∀ s : String, extract_sprint (some [SprintElem.sstr s])
        = (re_search_capture "name=" s,
           (re_search_capture "state=" s).map py_lower))
    ∧ (∀ (nm st : String),
        extract_sprint (some [SprintElem.sobj (some nm) (some st)])
          = (some nm, some (py_lower st)))
    ∧ extract_sprint (some [SprintElem.sstr legacy_sprint_string])
        = (some "Sprint 7", some "active") := by
  refine ⟨rfl, rfl, fun l e => ?_, fun s => rfl, fun nm st => rfl, by decide⟩
  simp [extract_sprint, List.getLast?_concat]

/-- C8: get_estimation_field_id and get_sprint_field_id resolve the
first name, among the truthy override followed by the fixed fallback
lists in source order, that get_custom_field_id resolves against the
populated (lower-cased-key) field map, and none otherwise; and with no
override and a map built from a field list containing "Story Points"
but not "Story point estimate", the estimation id is the one mapped to
"Story Points". -/
theorem field_id_resolution_order :
    (∀ (jc : Bool) (fm : List (String × String)) (ef : String),
        get_estimation_field_id jc fm ef
          = ((if ef ≠ "" then [ef] else []) ++ estimation_common_names).findSome?
              (fun n => get_custom_field_id jc fm n))
    ∧ (∀ (jc : Bool) (fm : List (String × String)) (sf : String),
        get_sprint_field_id jc fm sf
          = ((if sf ≠ "" then [sf] else []) ++ sprint_common_names).findSome?
              (fun n => get_custom_field_id jc fm n))
    ∧ get_estimation_field_id true
        (build_field_cache
          [{ id := some "customfield_10016", name := some "Story Points",
             custom := true }]) ""
        = some "customfield_10016" := by
  refine ⟨fun jc fm ef => ?_, fun jc fm sf => ?_, by decide⟩
  · by_cases hef : ef = ""
    · subst hef
      simp [get_estimation_field_id]
    · cases hov : get_custom_field_id jc fm ef with
      | none => simp [get_estimation_field_id, hef, hov, List.findSome?_cons]
      | some fid => simp [get_estimation_field_id, hef, hov, List.findSome?_cons]
  · by_cases hsf : sf = ""
    · subst hsf
      simp [get_sprint_field_id]
    · cases hov : get_custom_field_id jc fm sf with
      | none => simp [get_sprint_field_id, hsf, hov, List.findSome?_cons]
      | some fid => simp [get_sprint_field_id, hsf, hov, List.findSome?_cons]

/-- The scan loop equals a find over the reversed histories once every
scanned event carries a timestamp. -/
theorem scan_status_change_eq_find (l : List RawHistory)
    (hc : ∀ h ∈ l, h.created.isSome = true) :
    scan_status_change l
      = (l.find? has_status_item).bind (fun h => h.created) := by
  induction l with
  | nil => rfl
  | cons a rest ih =>
    by_cases hs : has_status_item a
    · cases hcr : a.created with
      | none =>
        have := hc a (List.mem_cons_self a rest)
        rw [hcr] at this
        simp at this
      | some t => simp [scan_status_change, hs, hcr, List.find?_cons_of_pos]
    · have hrest : ∀ h ∈ rest, h.created.isSome = true :=
        fun h hm => hc h (List.mem_cons_of_mem a hm)
      simp [scan_status_change, hs, List.find?_cons_of_neg, ih hrest]

/-- The scan yields none when no event carries a status item. -/
theorem scan_status_change_none (l : List RawHistory)
    (hs : ∀ h ∈ l, has_status_item h = false) :
    scan_status_change l = none := by
  induction l with
  | nil => rfl
  | cons a rest ih =>
    have ha := hs a (List.mem_cons_self a rest)
    have hrest : ∀ h ∈ rest, has_status_item h = false :=
      fun h hm => hs h (List.mem_cons_of_mem a hm)
    simp [scan_status_change, ha, ih hrest]

/-- The two copies of the scan loop in the source compute the same
function. -/
theorem backfill_scan_eq_scan (l : List RawHistory) :
    backfill_scan l = scan_status_change l := by
  induction l with
  | nil => rfl
  | cons a rest ih =>
    by_cases hs : has_status_item a
    · cases hcr : a.created with
      | none => simp [backfill_scan, scan_status_change, hs, hcr, ih]
      | some t => simp [backfill_scan, scan_status_change, hs, hcr]
    · simp [backfill_scan, scan_status_change, hs, ih]

/-- C9: when every history event carries its timestamp, statusChangeDate
is the timestamp of the first event seen when scanning newest-first
(reversed list) that contains an item changing "status"; it is absent
with no changelog, and absent when no event changed the status; and the
search backfill computes the same value as parse_issue. -/
theorem status_change_newest_first :
    (∀ histories : List RawHistory,
        (∀ h ∈ histories, h.created.isSome = true) →
        parse_issue_status_change_date (some histories)
          = (histories.reverse.find? has_status_item).bind
              (fun h => h.created))
    ∧ parse_issue_status_change_date none = none
    ∧ (∀ histories : List RawHistory,
        (∀ h ∈ histories, has_status_item h = false) →
        parse_issue_status_change_date (some histories) = none)
    ∧ (∀ changelog : Option (List RawHistory),
        backfill_status_change_date (Except.ok changelog)
          = parse_issue_status_change_date changelog) := by
  refine ⟨fun histories hc => ?_, rfl, fun histories hs => ?_,
    fun changelog => ?_⟩
  · exact scan_status_change_eq_find histories.reverse
      (fun h hm => hc h (List.mem_reverse.mp hm))
  · exact scan_status_change_none histories.reverse
      (fun h hm => hs h (List.mem_reverse.mp hm))
  · cases changelog with
    | none => rfl
    | some histories =>
      simp [backfill_status_change_date, parse_issue_status_change_date,
        backfill_scan_eq_scan]

/-- Three concrete history events, chronological: status changed at 100,
assignee at 200, status again at 300. -/
def sample_histories : List RawHistory :=
  [{ created := some 100, author := none,
     items := [{ field := some "status", fromString := some "To Do",
                 toString := some "In Progress" }] },
   { created := some 200, author := none,
     items := [{ field := some "assignee", fromString := none,
                 toString := some "Dana" }] },
   { created := some 300, author := none,
     items := [{ field := some "status", fromString := some "In Progress",
                 toString := some "Review" }] }]

/-- Witness for C9 at the concrete histories: the newest status change
(at 300) is the one reported. -/
theorem status_change_newest_first_witness :
    (∀ h ∈ sample_histories, h.created.isSome = true)
    ∧ parse_issue_status_change_date (some sample_histories)
        = (sample_histories.reverse.find? has_status_item).bind
            (fun h => h.created)
    ∧ parse_issue_status_change_date (some sample_histories) = some 300 :=
  ⟨by decide, status_change_newest_first.1 sample_histories (by decide),
   by decide⟩

end Pioj
